import Mathlib

/-!
Verification of the event-ingestion harness scripts of the
`azure_event_hub` repository (send_events.py, receive_events.py,
data_explorer_demo.py, demo.py, quick_test.py), shallowly embedded in
Lean 4.  Dictionaries are embedded as insertion-ordered association
lists (Python `dict` semantics: `m.get(k, d)` reads the first binding,
`m[k] = v` updates in place or appends), the JSON documents produced by
`json.dump` as an inductive value type, and the side-effecting handlers
additionally as traces of abstract actions where the claim is about
ordering of effects.
-/

/-- JSON-like value, modelling the structured documents the scripts build
and pass to `json.dump` (with `default=str`, which renders datetimes as
strings). -/
inductive J where
  | null : J
  | str (s : String) : J
  | num (n : Int) : J
  | bool (b : Bool) : J
  | obj (fields : List (String × J)) : J
  | arr (elems : List J) : J
deriving Repr

/-- An event as delivered by the transport SDK to a handler:
`partition_context.partition_id`, `event.offset`,
`event.sequence_number`, `event.enqueued_time`, `event.properties`, and
the two body accessors: `body_as_json()` (which raises when the body is
not valid JSON, embedded as `none`) and `body_as_str()`. -/
structure Event where
  partition_id : String
  offset : Nat
  sequence_number : Nat
  enqueued_time : Nat
  properties : List (String × String)
  bodyJson : Option J
  bodyStr : String

/-- Python `m.get(k, d)` on a string-keyed counter dict. -/
def getD (m : List (String × Nat)) (k : String) (d : Nat) : Nat :=
  match m with
  | [] => d
  | (k', v) :: rest => if k' = k then v else getD rest k d

/-- Python `m[k] = m.get(k, 0) + 1`: update the binding in place if the
key is present, otherwise append a fresh binding at the end (insertion
order). -/
def bump (m : List (String × Nat)) (k : String) : List (String × Nat) :=
  match m with
  | [] => [(k, 1)]
  | (k', v) :: rest => if k' = k then (k', v + 1) :: rest else (k', v) :: bump rest k

/-- Sum of the counts of a counter dict. -/
def sumVals (m : List (String × Nat)) : Nat :=
  (m.map Prod.snd).sum

/-- Python `props.get("event_type", "unknown")` on string properties. -/
def propGetD (props : List (String × String)) (k d : String) : String :=
  match props with
  | [] => d
  | (k', v) :: rest => if k' = k then v else propGetD rest k d

/-- The `self.stats` dictionary of `EventHubDataExplorer`. -/
structure Stats where
  total_events : Nat
  events_by_type : List (String × Nat)
  events_by_partition : List (String × Nat)
  start_time : Option Nat
  end_time : Option Nat

/-- Result of `_parse_event_body`: structured JSON on success, the raw
string on fallback. -/
inductive Body where
  | json (j : J) : Body
  | str (s : String) : Body

/-- The `event_data` record built by `collect_events.on_event`. -/
structure EventRecord where
  partition_id : String
  offset : Nat
  sequence_number : Nat
  enqueued_time : Nat
  properties : List (String × String)
  body : Body

/-- Mutable state of an `EventHubDataExplorer` instance:
`self.events_buffer` and `self.stats`. -/
structure ExplorerState where
  events_buffer : List EventRecord
  stats : Stats

/-- State set up by `EventHubDataExplorer.__init__`. -/
def initState : ExplorerState :=
  { events_buffer := []
    stats :=
      { total_events := 0
        events_by_type := []
        events_by_partition := []
        start_time := none
        end_time := none } }

/-- `EventHubDataExplorer._parse_event_body`: try `body_as_json()`, fall
back to `body_as_str()` on any exception. -/
def parse_event_body (ev : Event) : Body :=
  match ev.bodyJson with
  | some j => Body.json j
  | none => Body.str ev.bodyStr

/-- The `event_data` dictionary `collect_events.on_event` builds from a
received event. -/
def mkEventRecord (ev : Event) : EventRecord :=
  { partition_id := ev.partition_id
    offset := ev.offset
    sequence_number := ev.sequence_number
    enqueued_time := ev.enqueued_time
    properties := ev.properties
    body := parse_event_body ev }

/-- `collect_events.on_event` (data_explorer_demo.py): append the event
record to the buffer, then increment the total, the per-type count
(default type "unknown") and the per-partition count; the checkpoint
update that follows has no effect on this state. -/
def on_event (st : ExplorerState) (ev : Event) : ExplorerState :=
  let ed := mkEventRecord ev
  let event_type := propGetD ed.properties "event_type" "unknown"
  { events_buffer := st.events_buffer ++ [ed]
    stats :=
      { st.stats with
        total_events := st.stats.total_events + 1
        events_by_type := bump st.stats.events_by_type event_type
        events_by_partition := bump st.stats.events_by_partition ed.partition_id } }

/-- The cumulative effect of the collection loop delivering a list of
events to `on_event`, starting from a fresh explorer. -/
def runHandler (evs : List Event) : ExplorerState :=
  evs.foldl on_event initState

/-- `collect_events` with an external stop after `k` delivered events:
`start_time` is set before the receive loop, the loop delivers the first
`k` events to `on_event`, the `asyncio.CancelledError` is swallowed by
the `except ... pass`, and `end_time` is set before returning. -/
def collect_events_run (t0 : Nat) (delivered : List Event) (k : Nat) (t1 : Nat) : ExplorerState :=
  let st0 : ExplorerState :=
    { initState with stats := { initState.stats with start_time := some t0 } }
  let st1 := (delivered.take k).foldl on_event st0
  { st1 with stats := { st1.stats with end_time := some t1 } }

/-- One percentage line of `display_summary`:
`(count / total_events) * 100`, raising `ZeroDivisionError` when the
total is zero, exactly as Python division does. -/
def pct (count total : Nat) : Except String Rat :=
  if total = 0 then Except.error "ZeroDivisionError"
  else Except.ok (((count : Rat) / (total : Rat)) * 100)

/-- One rendered line of a percentage breakdown. -/
structure BreakdownEntry where
  key : String
  count : Nat
  percentage : Rat
deriving DecidableEq, Repr

/-- The breakdown loop of `display_summary` over one counter dict: a
line per entry, stopping with the exception Python raises at the first
division by zero. -/
def breakdownList (m : List (String × Nat)) (total : Nat) : Except String (List BreakdownEntry) :=
  match m with
  | [] => Except.ok []
  | (k, v) :: rest => do
      let p ← pct v total
      let tail ← breakdownList rest total
      Except.ok ({ key := k, count := v, percentage := p } :: tail)

/-- Insert one binding into a key-sorted counter list. -/
def insertSorted (p : String × Nat) (m : List (String × Nat)) : List (String × Nat) :=
  match m with
  | [] => [p]
  | q :: rest => if p.1 < q.1 then p :: q :: rest else q :: insertSorted p rest

/-- Python `sorted(m.items())` on a string-keyed counter dict: ascending
by key. -/
def sortByKey (m : List (String × Nat)) : List (String × Nat) :=
  match m with
  | [] => []
  | p :: rest => insertSorted p (sortByKey rest)

/-- Everything `display_summary` prints, as data. -/
structure SummaryView where
  startTime : Nat
  endTime : Nat
  duration : Int
  total : Nat
  rate : Option Rat
  byType : List BreakdownEntry
  byPartition : List BreakdownEntry
deriving DecidableEq, Repr

/-- `EventHubDataExplorer.display_summary`: duration from the two
session timestamps (a `TypeError` when either is unset), the
events-per-second rate only when the total is positive, then the
per-type breakdown in insertion order and the per-partition breakdown
sorted by partition id, each line dividing by `total_events`. -/
def display_summary (stats : Stats) : Except String SummaryView :=
  match stats.start_time, stats.end_time with
  | some t0, some t1 => do
      let duration : Int := (t1 : Int) - (t0 : Int)
      let rate : Option Rat ←
        if 0 < stats.total_events then
          if duration = 0 then Except.error "ZeroDivisionError"
          else Except.ok (some ((stats.total_events : Rat) / (duration : Rat)))
        else Except.ok none
      let byType ← breakdownList stats.events_by_type stats.total_events
      let byPartition ← breakdownList (sortByKey stats.events_by_partition) stats.total_events
      Except.ok
        { startTime := t0, endTime := t1, duration := duration
          total := stats.total_events, rate := rate
          byType := byType, byPartition := byPartition }
  | _, _ => Except.error "TypeError"

/-- Python slice `buffer[-limit:]` for a non-negative `limit`: the last
`limit` elements, except that `-0` is `0`, so `limit = 0` yields the
whole list. -/
def pySliceLast {α : Type} (xs : List α) (limit : Nat) : List α :=
  if limit = 0 then xs else xs.drop (xs.length - limit)

/-- `EventHubDataExplorer.display_recent_events`: take
`buffer[-limit:]` when the buffer is longer than `limit`, otherwise the
whole buffer, and display it reversed (most recently appended first). -/
def display_recent_events {α : Type} (buffer : List α) (limit : Nat) : List α :=
  let recent := if limit < buffer.length then pySliceLast buffer limit else buffer
  recent.reverse

/-- A datetime field serialized inside `statistics` by
`json.dump(..., default=str)`: `str(datetime)` when set, `null` when
`None`. -/
def timeJson (t : Option Nat) : J :=
  match t with
  | some n => J.str (toString n)
  | none => J.null

/-- A datetime field serialized in `export_info.collection_period`:
`isoformat() + "Z"` when set, `None` otherwise. -/
def isoZ (t : Option Nat) : J :=
  match t with
  | some n => J.str (toString n ++ "Z")
  | none => J.null

/-- A counter dict serialized as a JSON object. -/
def natMapToJson (m : List (String × Nat)) : J :=
  J.obj (m.map fun p => (p.1, J.num (p.2 : Int)))

/-- A parsed-or-raw body serialized as JSON. -/
def bodyToJson (b : Body) : J :=
  match b with
  | Body.json j => j
  | Body.str s => J.str s

/-- One buffered event record serialized as JSON. -/
def eventRecordToJson (e : EventRecord) : J :=
  J.obj
    [("partition_id", J.str e.partition_id),
     ("offset", J.num (e.offset : Int)),
     ("sequence_number", J.num (e.sequence_number : Int)),
     ("enqueued_time", J.str (toString e.enqueued_time)),
     ("properties", J.obj (e.properties.map fun p => (p.1, J.str p.2))),
     ("body", bodyToJson e.body)]

/-- The `statistics` section of the export: the `self.stats` dict
serialized field by field in insertion order. -/
def statsToJson (s : Stats) : J :=
  J.obj
    [("total_events", J.num (s.total_events : Int)),
     ("events_by_type", natMapToJson s.events_by_type),
     ("events_by_partition", natMapToJson s.events_by_partition),
     ("start_time", timeJson s.start_time),
     ("end_time", timeJson s.end_time)]

/-- `EventHubDataExplorer.export_to_json`: the `export_data` document
handed to `json.dump` — `export_info` (export timestamp, buffer length
as total, collection window), `statistics` (the stats dict), `events`
(the buffer, in order). -/
def export_to_json (exported_at : Nat) (stats : Stats) (buffer : List EventRecord) : J :=
  J.obj
    [("export_info",
      J.obj
        [("exported_at", J.str (toString exported_at ++ "Z")),
         ("total_events", J.num (buffer.length : Int)),
         ("collection_period",
          J.obj [("start", isoZ stats.start_time), ("end", isoZ stats.end_time)])]),
     ("statistics", statsToJson stats),
     ("events", J.arr (buffer.map eventRecordToJson))]

/-- Look up a key of a JSON object (first binding). -/
def jGet (doc : J) (k : String) : Option J :=
  match doc with
  | J.obj fields => lookupField fields k
  | _ => none
where
  lookupField : List (String × J) → String → Option J
    | [], _ => none
    | (k', v) :: rest, k => if k' = k then some v else lookupField rest k

/-- The top-level key set of a JSON object, in serialization order. -/
def jTopKeys (doc : J) : List String :=
  match doc with
  | J.obj fields => fields.map Prod.fst
  | _ => []

/-- Read a JSON number back as a count. -/
def jAsNat (doc : J) : Option Nat :=
  match doc with
  | J.num n => if 0 ≤ n then some n.toNat else none
  | _ => none

/-- Deserialize a JSON object back into a counter dict. -/
def decodeNatMap (doc : J) : Option (List (String × Nat)) :=
  match doc with
  | J.obj fields => decodeFields fields
  | _ => none
where
  decodeFields : List (String × J) → Option (List (String × Nat))
    | [] => some []
    | (k, v) :: rest => do
        let n ← jAsNat v
        let tail ← decodeFields rest
        some ((k, n) :: tail)

/-- Deserialize the counts of an exported document: the total, per-type
and per-partition counts of its `statistics` section. -/
def decodeCounts (doc : J) : Option (Nat × List (String × Nat) × List (String × Nat)) := do
  let s ← jGet doc "statistics"
  let t ← jAsNat (← jGet s "total_events")
  let bt ← decodeNatMap (← jGet s "events_by_type")
  let bp ← decodeNatMap (← jGet s "events_by_partition")
  some (t, bt, bp)

/-- Deserialize the event count recorded in `export_info`. -/
def decodeExportInfoTotal (doc : J) : Option Nat := do
  jAsNat (← jGet (← jGet doc "export_info") "total_events")

/-- Deserialize the number of entries of the `events` section. -/
def decodeEventsLength (doc : J) : Option Nat :=
  match jGet doc "events" with
  | some (J.arr elems) => some elems.length
  | _ => none

/-- Starting position string passed by `receive_events` to
`consumer.receive` (receive_events.py). -/
def receive_events_starting_position : String := "-1"

/-- Starting position string passed by `collect_events` to
`consumer.receive` (data_explorer_demo.py). -/
def collect_events_starting_position : String := "-1"

/-- Starting position string passed by `receive_demo_events` to
`consumer.receive` (demo.py). -/
def receive_demo_events_starting_position : String := "-1"

/-- The transport's receive operation restricted to one partition log,
modelled from the Azure Event Hub SDK's documented semantics for
`starting_position` (the transport is an external collaborator): the
offset string "-1" denotes the beginning of the partition, so the whole
log — historical backlog included — is delivered to `on_event`, while
"@latest" denotes the end of the partition, delivering only events
enqueued after the session opens.  Other positions are not used by this
repository and are left out of the model. -/
def deliveredToOnEvent (log : List Event) (sessionStart : Nat) (pos : String) : List Event :=
  if pos = "@latest" then log.filter (fun e => decide (sessionStart < e.enqueued_time))
  else if pos = "-1" then log
  else []

/-- One abstract effect of a consumer event handler, in program order. -/
inductive HandlerAction where
  | parseBody : HandlerAction
  | appendBuffer : HandlerAction
  | bumpTotal : HandlerAction
  | bumpByType : HandlerAction
  | bumpByPartition : HandlerAction
  | printEvent : HandlerAction
  | logError : HandlerAction
  | checkpoint (partition_id : String) (offset : Nat) (seq : Nat) : HandlerAction
deriving DecidableEq, Repr

/-- Whether an action accounts for the event (buffer append or a
statistics update). -/
def isAccounting (a : HandlerAction) : Bool :=
  match a with
  | HandlerAction.appendBuffer => true
  | HandlerAction.bumpTotal => true
  | HandlerAction.bumpByType => true
  | HandlerAction.bumpByPartition => true
  | _ => false

/-- Whether an action is a checkpoint update. -/
def isCkpt (a : HandlerAction) : Bool :=
  match a with
  | HandlerAction.checkpoint _ _ _ => true
  | _ => false

/-- Effect trace of `collect_events.on_event` (data_explorer_demo.py):
parse the body, append the record, update the three counters, then
`await partition_context.update_checkpoint(event)` — straight-line code,
the same order in every execution. -/
def explorerOnEventTrace (ev : Event) : List HandlerAction :=
  [HandlerAction.parseBody, HandlerAction.appendBuffer, HandlerAction.bumpTotal,
   HandlerAction.bumpByType, HandlerAction.bumpByPartition,
   HandlerAction.checkpoint ev.partition_id ev.offset ev.sequence_number]

/-- Effect trace of the module-level `on_event` of receive_events.py:
print the metadata, try to parse and print the body (printing the raw
string on failure — the `except` branch), then update the checkpoint.
Both branches reach the checkpoint. -/
def receiveOnEventTrace (ev : Event) : List HandlerAction :=
  match ev.bodyJson with
  | some _ =>
      [HandlerAction.printEvent, HandlerAction.parseBody, HandlerAction.printEvent,
       HandlerAction.checkpoint ev.partition_id ev.offset ev.sequence_number]
  | none =>
      [HandlerAction.printEvent, HandlerAction.parseBody, HandlerAction.printEvent,
       HandlerAction.checkpoint ev.partition_id ev.offset ev.sequence_number]

/-- Effect trace of `receive_demo_events.on_event` (demo.py): the body
parse comes first inside the `try`, so when `body_as_json()` raises, the
`except` branch only logs — no append and no checkpoint happen. -/
def demoOnEventTrace (ev : Event) : List HandlerAction :=
  match ev.bodyJson with
  | some _ =>
      [HandlerAction.parseBody, HandlerAction.appendBuffer, HandlerAction.printEvent,
       HandlerAction.checkpoint ev.partition_id ev.offset ev.sequence_number]
  | none => [HandlerAction.parseBody, HandlerAction.logError]

/-- One entry of the `events_received` list of
`receive_demo_events` (demo.py). -/
structure DemoRecord where
  partition : String
  offset : Nat
  properties : List (String × String)
  body : J

/-- The `events_received` accumulator of `receive_demo_events`. -/
structure DemoState where
  events_received : List DemoRecord

/-- `receive_demo_events.on_event` (demo.py): `body_as_json()` is called
first inside the `try`; on success the record is appended and the event
checkpointed; on a parse failure the `except Exception` branch prints
the error and the handler returns with the state unchanged — the
exception never propagates, but the event is not recorded. -/
def demo_on_event (st : DemoState) (ev : Event) : DemoState :=
  match ev.bodyJson with
  | some j =>
      { events_received :=
          st.events_received ++
            [{ partition := ev.partition_id, offset := ev.offset
               properties := ev.properties, body := j }] }
  | none => st

/-- One observable step of the sender scripts (send_events.py). -/
inductive SendAction where
  | attempt (i : Nat) : SendAction
  | sendOk (i : Nat) : SendAction
  | sendError (i : Nat) : SendAction
  | sleepDelay (i : Nat) : SendAction
  | batchDone (n : Nat) : SendAction
deriving DecidableEq, Repr

/-- State of the shared `EventHubProducerClient`: whether it has been
closed.  `send_single_event` wraps its send in `async with producer`,
whose exit closes the client; the SDK raises `ClientClosedError` on any
later operation on a closed client. -/
structure Producer where
  closed : Bool

/-- `EventHubSender.send_single_event` for the `i`-th event, given
whether the transport accepts the send: every exception — transport
failure or closed-client failure — is caught by the `except Exception`
branch and only logged, so the call always returns normally; the
`async with producer` block leaves the producer closed on every path. -/
def send_single_event (p : Producer) (transportOk : Bool) (i : Nat) : Producer × List SendAction :=
  if p.closed then
    ({ closed := true }, [SendAction.attempt i, SendAction.sendError i])
  else if transportOk then
    ({ closed := true }, [SendAction.attempt i, SendAction.sendOk i])
  else
    ({ closed := true }, [SendAction.attempt i, SendAction.sendError i])

/-- The `for i in range(num_events)` loop of
`EventHubSender.send_batch_events`: one `send_single_event` call per
event, an `asyncio.sleep(delay)` after every event but the last, and no
early exit on failure. -/
def sendLoop (p : Producer) (outcomes : List Bool) (i total : Nat) : List SendAction :=
  match outcomes with
  | [] => []
  | ok :: rest =>
      let step := send_single_event p ok i
      step.2 ++ (if i + 1 < total then [SendAction.sleepDelay i] else [])
        ++ sendLoop step.1 rest (i + 1) total

/-- `EventHubSender.send_batch_events` over the per-event transport
outcomes: run the loop from a fresh open producer, then print the
completion message for all `n` events. -/
def send_batch_events (outcomes : List Bool) : List SendAction :=
  sendLoop { closed := false } outcomes 0 outcomes.length
    ++ [SendAction.batchDone outcomes.length]

/-- A sample backlog event: enqueued at time 5, i.e. before a session
that opens at time 10. -/
def backlogEvent : Event :=
  { partition_id := "0", offset := 7, sequence_number := 1, enqueued_time := 5
    properties := [], bodyJson := none, bodyStr := "old" }

/-- A sample received event whose body is not valid JSON. -/
def rawEvent : Event :=
  { partition_id := "1", offset := 3, sequence_number := 4, enqueued_time := 9
    properties := [("event_type", "error")], bodyJson := none, bodyStr := "not json" }

/-- A sample received event with a JSON body and an `event_type`
property. -/
def loginEvent : Event :=
  { partition_id := "0", offset := 11, sequence_number := 2, enqueued_time := 12
    properties := [("event_type", "user_login")]
    bodyJson := some (J.obj [("event_type", J.str "user_login")])
    bodyStr := "login body" }

/-- A second sample received event, on another partition. -/
def purchaseEvent : Event :=
  { partition_id := "1", offset := 21, sequence_number := 1, enqueued_time := 13
    properties := [("event_type", "purchase")]
    bodyJson := some (J.obj [("event_type", J.str "purchase")])
    bodyStr := "purchase body" }

/-- Whether a sender step is a send attempt (a `create_batch` /
`send_batch` call for some event). -/
def isAttempt (a : SendAction) : Bool :=
  match a with
  | SendAction.attempt _ => true
  | _ => false

/-! Helper lemmas about the accumulator updates of `on_event`. -/

lemma sumVals_bump (m : List (String × Nat)) (k : String) :
    sumVals (bump m k) = sumVals m + 1 := by
  induction m with
  | nil => simp [bump, sumVals]
  | cons p rest ih =>
      obtain ⟨k', v⟩ := p
      by_cases h : k' = k
      · simp [bump, h, sumVals]
        omega
      · simp [bump, h, sumVals] at ih ⊢
        omega

lemma foldl_on_event_total (evs : List Event) :
    ∀ st : ExplorerState,
      (evs.foldl on_event st).stats.total_events
        = st.stats.total_events + evs.length := by
  induction evs with
  | nil => intro st; simp
  | cons ev rest ih =>
      intro st
      simp only [List.foldl_cons, ih, on_event, List.length_cons]
      omega

lemma foldl_on_event_sum_by_type (evs : List Event) :
    ∀ st : ExplorerState,
      sumVals ((evs.foldl on_event st).stats.events_by_type)
        = sumVals st.stats.events_by_type + evs.length := by
  induction evs with
  | nil => intro st; simp
  | cons ev rest ih =>
      intro st
      simp only [List.foldl_cons, ih, on_event, sumVals_bump, List.length_cons]
      omega

lemma foldl_on_event_sum_by_partition (evs : List Event) :
    ∀ st : ExplorerState,
      sumVals ((evs.foldl on_event st).stats.events_by_partition)
        = sumVals st.stats.events_by_partition + evs.length := by
  induction evs with
  | nil => intro st; simp
  | cons ev rest ih =>
      intro st
      simp only [List.foldl_cons, ih, on_event, sumVals_bump, List.length_cons]
      omega

lemma foldl_on_event_buffer (evs : List Event) :
    ∀ st : ExplorerState,
      (evs.foldl on_event st).events_buffer
        = st.events_buffer ++ evs.map mkEventRecord := by
  induction evs with
  | nil => intro st; simp
  | cons ev rest ih =>
      intro st
      simp only [List.foldl_cons, ih, on_event, List.map_cons]
      simp

lemma foldl_on_event_start_time (evs : List Event) :
    ∀ st : ExplorerState,
      (evs.foldl on_event st).stats.start_time = st.stats.start_time := by
  induction evs with
  | nil => intro st; simp
  | cons ev rest ih =>
      intro st
      simp only [List.foldl_cons, ih, on_event]

/-- C2: after any sequence of events is processed by
`collect_events.on_event` — any interleaving of partitions, any mix of
events with and without an `event_type` property — the per-type counts
and the per-partition counts each sum to `total_events`. -/
theorem stats_sums_match_total (evs : List Event) :
    sumVals ((runHandler evs).stats.events_by_type)
        = (runHandler evs).stats.total_events
      ∧ sumVals ((runHandler evs).stats.events_by_partition)
        = (runHandler evs).stats.total_events := by
  unfold runHandler
  rw [foldl_on_event_total, foldl_on_event_sum_by_type, foldl_on_event_sum_by_partition]
  simp [initState, sumVals]

/-! Helper lemmas about serializing and re-reading the export
document. -/

lemma jAsNat_natCast (n : Nat) : jAsNat (J.num (n : Int)) = some n := by
  simp [jAsNat]

lemma decodeFields_natMap (m : List (String × Nat)) :
    decodeNatMap.decodeFields (m.map fun p => (p.1, J.num (p.2 : Int))) = some m := by
  induction m with
  | nil => simp [decodeNatMap.decodeFields]
  | cons p rest ih =>
      simp [decodeNatMap.decodeFields, jAsNat_natCast, ih]

lemma decodeNatMap_natMapToJson (m : List (String × Nat)) :
    decodeNatMap (natMapToJson m) = some m := by
  simp [decodeNatMap, natMapToJson, decodeFields_natMap]

lemma decodeCounts_export (t : Nat) (stats : Stats) (buffer : List EventRecord) :
    decodeCounts (export_to_json t stats buffer)
      = some (stats.total_events, stats.events_by_type, stats.events_by_partition) := by
  simp [decodeCounts, export_to_json, statsToJson, jGet, jGet.lookupField,
    jAsNat_natCast, decodeNatMap_natMapToJson]

lemma decodeExportInfoTotal_export (t : Nat) (stats : Stats) (buffer : List EventRecord) :
    decodeExportInfoTotal (export_to_json t stats buffer) = some buffer.length := by
  simp [decodeExportInfoTotal, export_to_json, jGet, jGet.lookupField, jAsNat_natCast]

lemma decodeEventsLength_export (t : Nat) (stats : Stats) (buffer : List EventRecord) :
    decodeEventsLength (export_to_json t stats buffer) = some buffer.length := by
  simp [decodeEventsLength, export_to_json, jGet, jGet.lookupField]

lemma jTopKeys_export (t : Nat) (stats : Stats) (buffer : List EventRecord) :
    jTopKeys (export_to_json t stats buffer) = ["export_info", "statistics", "events"] := by
  simp [jTopKeys, export_to_json]

/-- C10: at every reachable state of a collection session the buffer
length equals `stats["total_events"]`, so the `total_events` the export
writes into `export_info` (computed as `len(self.events_buffer)`)
always equals the `total_events` of the `statistics` section. -/
theorem buffer_length_matches_total (evs : List Event) (t : Nat) :
    (runHandler evs).events_buffer.length = (runHandler evs).stats.total_events
      ∧ decodeExportInfoTotal
          (export_to_json t (runHandler evs).stats (runHandler evs).events_buffer)
        = some ((runHandler evs).stats.total_events)
      ∧ decodeCounts
          (export_to_json t (runHandler evs).stats (runHandler evs).events_buffer)
        = some ((runHandler evs).stats.total_events,
                (runHandler evs).stats.events_by_type,
                (runHandler evs).stats.events_by_partition) := by
  have hlen : (runHandler evs).events_buffer.length
      = (runHandler evs).stats.total_events := by
    unfold runHandler
    rw [foldl_on_event_total, foldl_on_event_buffer]
    simp [initState]
  refine ⟨hlen, ?_, decodeCounts_export _ _ _⟩
  rw [decodeExportInfoTotal_export, hlen]

/-- C6: serializing a stats-plus-buffer pair with `export_to_json` and
reading the produced document back reproduces the total event count,
the per-type counts and the per-partition counts exactly, and the
document has the stable top-level keys `export_info`, `statistics`,
`events`. -/
theorem export_round_trip (t : Nat) (stats : Stats) (buffer : List EventRecord) :
    decodeCounts (export_to_json t stats buffer)
        = some (stats.total_events, stats.events_by_type, stats.events_by_partition)
      ∧ decodeExportInfoTotal (export_to_json t stats buffer) = some buffer.length
      ∧ decodeEventsLength (export_to_json t stats buffer) = some buffer.length
      ∧ jTopKeys (export_to_json t stats buffer)
        = ["export_info", "statistics", "events"] :=
  ⟨decodeCounts_export t stats buffer, decodeExportInfoTotal_export t stats buffer,
   decodeEventsLength_export t stats buffer, jTopKeys_export t stats buffer⟩

/-- C5: when the session is cancelled externally after `k` of the
delivered events have been processed, `collect_events` still finalizes
`end_time` before returning, and the buffer holds exactly the `k`
fully-formed records of the events processed before the stop — no
partial or corrupt entry. -/
theorem cancelled_session_finalized (t0 t1 k : Nat) (delivered : List Event)
    (h : k ≤ delivered.length) :
    (collect_events_run t0 delivered k t1).stats.end_time = some t1
      ∧ (collect_events_run t0 delivered k t1).stats.start_time = some t0
      ∧ (collect_events_run t0 delivered k t1).events_buffer.length = k
      ∧ (collect_events_run t0 delivered k t1).events_buffer
        = (delivered.take k).map mkEventRecord := by
  unfold collect_events_run
  refine ⟨rfl, ?_, ?_, ?_⟩
  · rw [foldl_on_event_start_time]
  · rw [foldl_on_event_buffer]
    simp [initState, List.length_take]
    omega
  · rw [foldl_on_event_buffer]
    simp [initState]

/-- Witness for C5 at a concrete session: three events delivered, the
session cancelled after two. -/
theorem cancelled_session_finalized_witness :
    (collect_events_run 10 [loginEvent, purchaseEvent, rawEvent] 2 20).stats.end_time
        = some 20
      ∧ (collect_events_run 10 [loginEvent, purchaseEvent, rawEvent] 2 20).events_buffer.length
        = 2 :=
  ⟨(cancelled_session_finalized 10 20 2 [loginEvent, purchaseEvent, rawEvent]
      (by decide)).1,
   (cancelled_session_finalized 10 20 2 [loginEvent, purchaseEvent, rawEvent]
      (by decide)).2.2.1⟩

/-- Counterexample to C3 as stated for arbitrary `CollectionStats`: on a
stats value with `total_events == 0` but a non-empty per-type breakdown
(a pair no harness run produces, but within the claim's quantifier),
`display_summary` raises `ZeroDivisionError` at the first breakdown
line. -/
theorem summary_zero_total_div_error :
    display_summary
        { total_events := 0, events_by_type := [("x", 1)],
          events_by_partition := [], start_time := some 0, end_time := some 1 }
      = Except.error "ZeroDivisionError" := rfl

/-- C3 amended: for every `CollectionStats` with `total_events == 0`
whose breakdown dicts are empty — the only zero-total stats the harness
produces — `display_summary` completes without a division error, skips
the rate line, and (vacuously) every breakdown entry it reports shows
0%. -/
theorem display_summary_zero_total (stats : Stats) (t0 t1 : Nat)
    (h0 : stats.total_events = 0) (h1 : stats.events_by_type = [])
    (h2 : stats.events_by_partition = [])
    (h3 : stats.start_time = some t0) (h4 : stats.end_time = some t1) :
    display_summary stats
        = Except.ok
            { startTime := t0, endTime := t1, duration := (t1 : Int) - (t0 : Int),
              total := 0, rate := none, byType := [], byPartition := [] }
      ∧ ∀ sv, display_summary stats = Except.ok sv →
          (∀ e ∈ sv.byType, e.percentage = 0)
            ∧ (∀ e ∈ sv.byPartition, e.percentage = 0) := by
  obtain ⟨tot, bt, bp, stime, etime⟩ := stats
  simp only at h0 h1 h2 h3 h4
  subst h0 h1 h2 h3 h4
  refine ⟨rfl, ?_⟩
  intro sv hsv
  rw [show display_summary ⟨0, [], [], some t0, some t1⟩
      = Except.ok
          { startTime := t0, endTime := t1, duration := (t1 : Int) - (t0 : Int),
            total := 0, rate := none, byType := [], byPartition := [] } from rfl] at hsv
  injection hsv with hsv
  subst hsv
  simp

/-- Witness for C3 (amended) at a concrete zero-event session. -/
theorem display_summary_zero_total_witness :
    display_summary
        { total_events := 0, events_by_type := [], events_by_partition := [],
          start_time := some 3, end_time := some 8 }
      = Except.ok
          { startTime := 3, endTime := 8, duration := (8 : Int) - (3 : Int),
            total := 0, rate := none, byType := [], byPartition := [] } :=
  (display_summary_zero_total
      { total_events := 0, events_by_type := [], events_by_partition := [],
        start_time := some 3, end_time := some 8 }
      3 8 rfl rfl rfl rfl rfl).1

/-- Counterexample to C4 as stated for every limit: Python's
`buffer[-0:]` is the whole buffer, so with `limit = 0` on a one-element
buffer `display_recent_events` selects 1 event, not
`min(limit, len(buffer)) = 0`. -/
theorem display_recent_events_zero_limit :
    (display_recent_events ([0] : List Nat) 0).length
      ≠ min 0 ([0] : List Nat).length := by decide

/-- C4 amended: for every buffer and every positive limit,
`display_recent_events` selects exactly `min(limit, len(buffer))`
events — the reversed final segment of the buffer, so the most recently
appended event comes first — and the whole reversed buffer when the
limit exceeds the buffer size; as a pure function of the unmodified
buffer, repeated calls yield identical results.  With `limit = 0` and a
non-empty buffer it instead returns the whole buffer reversed. -/
theorem display_recent_events_spec {α : Type} (buffer : List α) (limit : Nat)
    (h : 1 ≤ limit) :
    display_recent_events buffer limit
        = (buffer.drop (buffer.length - limit)).reverse
      ∧ (display_recent_events buffer limit).length = min limit buffer.length
      ∧ (buffer.length ≤ limit → display_recent_events buffer limit = buffer.reverse)
      ∧ ∀ i, i < (display_recent_events buffer limit).length →
          (display_recent_events buffer limit)[i]?
            = buffer[buffer.length - 1 - i]? := by
  have hne : limit ≠ 0 := by omega
  have key : display_recent_events buffer limit
      = (buffer.drop (buffer.length - limit)).reverse := by
    unfold display_recent_events pySliceLast
    by_cases hc : limit < buffer.length
    · simp [hc, hne]
    · have hz : buffer.length - limit = 0 := by omega
      simp [hc, hz]
  refine ⟨key, ?_, ?_, ?_⟩
  · rw [key]
    simp only [List.length_reverse, List.length_drop]
    omega
  · intro hle
    have hz : buffer.length - limit = 0 := by omega
    rw [key, hz, List.drop_zero]
  · intro i hi
    rw [key] at hi ⊢
    simp only [List.length_reverse, List.length_drop] at hi
    rw [List.getElem?_reverse (by simpa using hi), List.getElem?_drop]
    congr 1
    simp only [List.length_drop]
    omega

/-- Witness for C4 (amended) at a concrete buffer of three events and a
limit of two. -/
theorem display_recent_events_spec_witness :
    (display_recent_events ([10, 20, 30] : List Nat) 2).length = min 2 3 :=
  (display_recent_events_spec ([10, 20, 30] : List Nat) 2 (by decide)).2.1

/-! Helper lemmas about the sender loop. -/

lemma send_single_event_filter_attempt (p : Producer) (ok : Bool) (i : Nat) :
    (send_single_event p ok i).2.filter isAttempt = [SendAction.attempt i] := by
  rcases p with ⟨c⟩
  cases c <;> cases ok <;> rfl

lemma sendLoop_filter_attempt (outcomes : List Bool) :
    ∀ (p : Producer) (i total : Nat),
      (sendLoop p outcomes i total).filter isAttempt
        = (List.range outcomes.length).map (fun j => SendAction.attempt (i + j)) := by
  induction outcomes with
  | nil => intro p i total; simp [sendLoop]
  | cons ok rest ih =>
      intro p i total
      have hfun : (fun j => SendAction.attempt (i + 1 + j))
          = (fun j => SendAction.attempt (i + (j + 1))) := by
        funext j
        congr 1
        omega
      by_cases hc : i + 1 < total
      · simp only [sendLoop, List.filter_append, send_single_event_filter_attempt, ih,
          List.length_cons, hc, if_pos]
        simp [List.range_succ_eq_map, List.map_map, hfun, Function.comp_def, isAttempt]
      · simp only [sendLoop, List.filter_append, send_single_event_filter_attempt, ih,
          List.length_cons, hc, if_neg, not_false_eq_true]
        simp [List.range_succ_eq_map, List.map_map, hfun, Function.comp_def, isAttempt]

lemma sendLoop_sendOk_closed (outcomes : List Bool) :
    ∀ (i total j : Nat),
      SendAction.sendOk j ∉ sendLoop { closed := true } outcomes i total := by
  induction outcomes with
  | nil => intro i total j; simp [sendLoop]
  | cons ok rest ih =>
      intro i total j
      simp only [sendLoop, send_single_event, List.mem_append]
      push_neg
      refine ⟨⟨by simp, ?_⟩, ih (i + 1) total j⟩
      split <;> simp

lemma sendLoop_sendOk_open (ok : Bool) (rest : List Bool) (i total j : Nat) :
    SendAction.sendOk j ∈ sendLoop { closed := false } (ok :: rest) i total
      ↔ (ok = true ∧ j = i) := by
  cases ok
  · simp only [sendLoop, send_single_event, List.mem_append]
    simp [sendLoop_sendOk_closed]
  · simp only [sendLoop, send_single_event, List.mem_append]
    simp [sendLoop_sendOk_closed]

/-- Counterexample to C7 as stated: a transport error while sending
event 0 of a two-event batch does not abort the batch — the error is
logged inside `send_single_event`, event 1 is still attempted, and the
completion message still reports the whole batch. -/
theorem send_batch_error_does_not_abort :
    SendAction.sendError 0 ∈ send_batch_events [false, true]
      ∧ SendAction.attempt 1 ∈ send_batch_events [false, true]
      ∧ SendAction.batchDone 2 ∈ send_batch_events [false, true] := by decide

/-- C7 amended: a transport error while sending event `i` is caught and
logged inside `send_single_event` and never aborts the batch:
`send_batch_events` attempts every event of the batch exactly once, in
order, reports completion for all of them, and retries nothing; a send
succeeds only for the first event (the `async with producer` block of
`send_single_event` closes the shared producer after the first attempt,
so every later attempt fails on the closed client and is likewise only
logged). -/
theorem send_batch_events_no_abort (outcomes : List Bool) :
    (send_batch_events outcomes).filter isAttempt
        = (List.range outcomes.length).map SendAction.attempt
      ∧ SendAction.batchDone outcomes.length ∈ send_batch_events outcomes
      ∧ ∀ j, SendAction.sendOk j ∈ send_batch_events outcomes
          ↔ (j = 0 ∧ outcomes.head? = some true) := by
  refine ⟨?_, ?_, ?_⟩
  · unfold send_batch_events
    rw [List.filter_append, sendLoop_filter_attempt]
    simp [isAttempt]
  · unfold send_batch_events
    simp
  · intro j
    unfold send_batch_events
    rw [List.mem_append]
    cases outcomes with
    | nil => simp [sendLoop]
    | cons ok rest =>
        simp only [sendLoop_sendOk_open, List.head?_cons, List.mem_singleton]
        constructor
        · rintro (⟨hok, hj⟩ | h)
          · exact ⟨hj, by rw [hok]⟩
          · exact absurd h (by simp)
        · rintro ⟨hj, hok⟩
          exact Or.inl ⟨by injection hok, hj⟩

/-- C9: in every execution of the collection handlers, the buffer
append and all statistics updates occur strictly before the checkpoint
update for that event: in the effect traces of
`collect_events.on_event` and `receive_demo_events.on_event`, every
accounting action precedes every checkpoint action. -/
theorem accounting_before_checkpoint (ev : Event) :
    (∀ (i j : Nat) (a b : HandlerAction), (explorerOnEventTrace ev)[i]? = some a →
        (explorerOnEventTrace ev)[j]? = some b →
        isAccounting a = true → isCkpt b = true → i < j)
      ∧ (∀ (i j : Nat) (a b : HandlerAction), (demoOnEventTrace ev)[i]? = some a →
          (demoOnEventTrace ev)[j]? = some b →
          isAccounting a = true → isCkpt b = true → i < j) := by
  constructor
  · intro i j a b hia hjb ha hb
    have hi6 : i < 6 := by
      simpa [explorerOnEventTrace] using (List.getElem?_eq_some.mp hia).1
    have hj6 : j < 6 := by
      simpa [explorerOnEventTrace] using (List.getElem?_eq_some.mp hjb).1
    interval_cases i <;> interval_cases j <;>
        simp only [explorerOnEventTrace, List.getElem?_cons_zero, List.getElem?_cons_succ,
          Option.some.injEq] at hia hjb <;>
      subst hia <;> subst hjb <;> simp_all [isAccounting, isCkpt]
  · intro i j a b hia hjb ha hb
    cases hbody : ev.bodyJson with
    | some jv =>
        simp only [demoOnEventTrace, hbody] at hia hjb
        have hi4 : i < 4 := by simpa using (List.getElem?_eq_some.mp hia).1
        have hj4 : j < 4 := by simpa using (List.getElem?_eq_some.mp hjb).1
        interval_cases i <;> interval_cases j <;>
            simp only [List.getElem?_cons_zero, List.getElem?_cons_succ,
              Option.some.injEq] at hia hjb <;>
          subst hia <;> subst hjb <;> simp_all [isAccounting, isCkpt]
    | none =>
        simp only [demoOnEventTrace, hbody] at hia hjb
        have hi2 : i < 2 := by simpa using (List.getElem?_eq_some.mp hia).1
        have hj2 : j < 2 := by simpa using (List.getElem?_eq_some.mp hjb).1
        interval_cases i <;> interval_cases j <;>
            simp only [List.getElem?_cons_zero, List.getElem?_cons_succ,
              Option.some.injEq] at hia hjb <;>
          subst hia <;> subst hjb <;> simp_all [isAccounting, isCkpt]

/-- Witness for C9 at a concrete event: the buffer append (position 1
of the trace) precedes the checkpoint (position 5). -/
theorem accounting_before_checkpoint_witness : (1 : Nat) < 5 :=
  (accounting_before_checkpoint loginEvent).1 1 5 HandlerAction.appendBuffer
    (HandlerAction.checkpoint "0" 11 2) rfl rfl rfl rfl

/-- Counterexample to C8 as stated for all three consumers: in
`receive_demo_events.on_event` (demo.py) the `body_as_json()` call comes
first inside the `try`, so an event whose body is not valid JSON is
caught by the `except` branch and skipped — it is not recorded in
`events_received` at all, rather than recorded like any other event. -/
theorem demo_skips_nonjson_event :
    rawEvent.bodyJson = none
      ∧ demo_on_event { events_received := [] } rawEvent = { events_received := [] } :=
  ⟨rfl, rfl⟩

/-- C8 amended: for every received event whose body is not valid JSON,
the data-explorer harness falls back to the raw string representation
and records the event like any other (buffer append and count), and
the receive_events handler prints the raw body and still checkpoints
the event; the failure is never fatal in any handler — but demo.py's
`receive_demo_events.on_event` merely catches the exception and skips
the event, leaving `events_received` unchanged. -/
theorem nonjson_body_fallback (st : ExplorerState) (dst : DemoState) (ev : Event)
    (h : ev.bodyJson = none) :
    parse_event_body ev = Body.str ev.bodyStr
      ∧ (on_event st ev).events_buffer = st.events_buffer ++ [mkEventRecord ev]
      ∧ (mkEventRecord ev).body = Body.str ev.bodyStr
      ∧ (on_event st ev).stats.total_events = st.stats.total_events + 1
      ∧ receiveOnEventTrace ev
        = [HandlerAction.printEvent, HandlerAction.parseBody, HandlerAction.printEvent,
           HandlerAction.checkpoint ev.partition_id ev.offset ev.sequence_number]
      ∧ demo_on_event dst ev = dst := by
  refine ⟨?_, rfl, ?_, rfl, ?_, ?_⟩
  · simp [parse_event_body, h]
  · simp [mkEventRecord, parse_event_body, h]
  · simp [receiveOnEventTrace, h]
  · simp [demo_on_event, h]

/-- Witness for C8 (amended) at a concrete non-JSON event. -/
theorem nonjson_body_fallback_witness :
    rawEvent.bodyJson = none
      ∧ parse_event_body rawEvent = Body.str "not json" :=
  ⟨rfl, (nonjson_body_fallback initState { events_received := [] } rawEvent rfl).1⟩

/-- C1 contradicted at a concrete backlog event: all three consumer
sessions pass starting position "-1", which the transport reads as the
beginning of the partition, so an event enqueued at time 5 — before a
session opening at time 10 — is delivered to `on_event`; the position
matching the claimed policy, "@latest", would deliver nothing.  The
code's own comments ("Eventos mais recentes" / "Começa do evento mais
recente") describe the "@latest" behavior, not the "-1" it passes. -/
theorem backlog_event_delivered :
    backlogEvent.enqueued_time < 10
      ∧ deliveredToOnEvent [backlogEvent] 10 receive_events_starting_position
        = [backlogEvent]
      ∧ deliveredToOnEvent [backlogEvent] 10 collect_events_starting_position
        = [backlogEvent]
      ∧ deliveredToOnEvent [backlogEvent] 10 receive_demo_events_starting_position
        = [backlogEvent]
      ∧ deliveredToOnEvent [backlogEvent] 10 "@latest" = [] :=
  ⟨by decide, rfl, rfl, rfl, rfl⟩
